import Mathlib

/-!
Shallow embedding of `platform_backend_python/app/development_env/web_platform_executor.py`,
the session/lifecycle engine of the code-execution broker: the prewarmed container
pool, the session registry, the dispatch endpoint (`execute_code`), result polling
(`get_result`), explicit cleanup (`cleanup_session`), the expiry sweeper
(`cleanup_expired_sessions`, modelled one iteration at a time), and the shutdown
drain (`shutdown_cleanup`).

Modelling conventions:
* A Docker container is a `Container` record carrying a runtime identity (`cid`,
  an allocation counter standing for the Docker-assigned id: every
  `docker_client.containers.run` call yields a container distinct from all
  existing ones), the main-process command it was started with, the files
  injected into `/code` via `put_archive`, the detached commands issued with
  `exec_run`, and its volume mounts.
* The module-level mutable state (`prewarmed_pool`, `sessions`) together with the
  allocation counter and the set of host directories created under `/tmp` is an
  `ExecState`; each endpoint is a function from state (plus request data) to a
  response paired with the new state.
* Runtime calls whose outcome is decided outside this file (`container.reload()`
  raising or returning a status string, `container.logs()`, `container.stop()` /
  `container.remove()`) are passed in as oracle functions `Nat → Except String _`
  or `Nat → String` indexed by the container id.
* Wall-clock time is a `Nat`; `time.time()` readings are passed in explicitly.
-/

namespace WebPlatformExecutor

/-- Resource-limit profile applied at container creation
(`cpu_quota`, `cpu_period`, `mem_limit` from `RESOURCE_LIMITS`). -/
structure ResourceLimits where
  cpu_quota : Nat
  cpu_period : Nat
  mem_limit : String
deriving Repr, DecidableEq

/-- The module constant `RESOURCE_LIMITS`. -/
def RESOURCE_LIMITS : ResourceLimits :=
  { cpu_quota := 50000, cpu_period := 100000, mem_limit := "128m" }

/-- The module constant `CONTAINER_IMAGE`. -/
def CONTAINER_IMAGE : String := "python:3.9-slim"

/-- The module constant `TIMEOUT_SECONDS`: the execution budget. -/
def TIMEOUT_SECONDS : Nat := 10

/-- The module constant `PREWARMED_POOL_SIZE`: pool target size. -/
def PREWARMED_POOL_SIZE : Nat := 1

/-- The sweeper's fixed inter-iteration delay: `time.sleep(5)`. -/
def SWEEP_INTERVAL : Nat := 5

/-- A volume mount passed to `docker_client.containers.run`:
host directory, bind point inside the container, and mode string. -/
structure Mount where
  hostDir : String
  bind : String
  mode : String
deriving Repr, DecidableEq

/-- A Docker container as the executor observes it: runtime identity,
the main process command, files injected via `put_archive` into `/code`,
detached commands issued via `exec_run`, and volume mounts. -/
structure Container where
  cid : Nat
  command : List String
  injectedFiles : List String
  execed : List String
  mounts : List Mount
deriving Repr, DecidableEq

/-- One entry of the `sessions` dict: the bound container and the
`time.time()` reading stored as `start_time`. -/
structure SessionRecord where
  container : Container
  start_time : Nat
deriving Repr, DecidableEq

/-- The module-level mutable state: `prewarmed_pool` (a Python list, popped
from the end), the `sessions` dict (association list with dict semantics:
insertion overwrites the key), the container-allocation counter, and the host
directories created under `/tmp`. -/
structure ExecState where
  prewarmed_pool : List Container
  sessions : List (String × SessionRecord)
  nextCid : Nat
  hostDirs : List String
deriving Repr, DecidableEq

/-- The state at process start: both `prewarmed_pool = []` and `sessions = {}`. -/
def initState : ExecState :=
  { prewarmed_pool := [], sessions := [], nextCid := 0, hostDirs := [] }

/-- Dict lookup `sessions.get(session_id)`. -/
def sessionsLookup (m : List (String × SessionRecord)) (k : String) :
    Option SessionRecord :=
  (m.find? (fun p => p.1 == k)).map (fun p => p.2)

/-- Dict removal `sessions.pop(session_id, None)`: afterwards the key is absent. -/
def sessionsRemove (m : List (String × SessionRecord)) (k : String) :
    List (String × SessionRecord) :=
  m.filter (fun p => !(p.1 == k))

/-- Dict assignment `sessions[session_id] = {...}`: overwrites the key. -/
def sessionsInsert (m : List (String × SessionRecord)) (k : String)
    (v : SessionRecord) : List (String × SessionRecord) :=
  sessionsRemove m k ++ [(k, v)]

/-- The uploaded entry file: a name (`code_file.filename`) and its bytes. -/
structure Payload where
  filename : String
  content : List Nat
deriving Repr, DecidableEq

/-- Responses of the `/execute` endpoint. -/
inductive ExecuteResponse where
  | sessionIdOk (sid : String)
  | noFileProvided
deriving Repr, DecidableEq

/-- Responses of the `/result/<session_id>` endpoint. -/
inductive ResultResponse where
  | sessionNotFound
  | stillRunning
  | finished (logs : String)
  | retrievalError (msg : String)
deriving Repr, DecidableEq

/-- Responses of the `/cleanup/<session_id>` endpoint. -/
inductive CleanupResponse where
  | sessionNotFound
  | cleanedUp
  | teardownError (msg : String)
deriving Repr, DecidableEq

/-- The container built by `create_prewarmed_container`: runs `sleep 3600`,
network disabled, no mounts, nothing injected or exec-ed yet. -/
def freshPrewarmedContainer (cid : Nat) : Container :=
  { cid := cid, command := ["sleep", "3600"], injectedFiles := [],
    execed := [], mounts := [] }

/-- `create_prewarmed_container` (successful path): start a fresh container
with the prewarmed command and append it to `prewarmed_pool`. A failing
creation leaves the state unchanged (the exception is only printed), which is
the identity on `ExecState` and needs no separate transition. -/
def create_prewarmed_container (st : ExecState) : ExecState :=
  { st with prewarmed_pool := st.prewarmed_pool ++ [freshPrewarmedContainer st.nextCid],
            nextCid := st.nextCid + 1 }

/-- The hard-coded detached command issued in the pool path of `execute_code`. -/
def RUN_COMMAND : String := "python /code/main.py"

/-- The `/execute` endpoint (`execute_code`). `file` is `request.files['file']`
when present. `sid` is the generated `uuid.uuid4()` and `now` the `time.time()`
reading stored into the record. If the pool is non-empty, the last container is
popped (`prewarmed_pool.pop()`), the payload is injected into `/code`
(`put_archive`) and `exec_run("python /code/main.py", detach=True)` is issued.
Otherwise a fresh container is started with command `python -m http.server` and
the session directory bind-mounted read-only at `/code`; no exec is issued. -/
def execute_code (st : ExecState) (sid : String) (now : Nat)
    (file : Option Payload) : ExecuteResponse × ExecState :=
  match file with
  | none => (ExecuteResponse.noFileProvided, st)
  | some payload =>
    let sessionDir := "/tmp/" ++ sid
    let st0 := { st with hostDirs := st.hostDirs ++ [sessionDir] }
    match st0.prewarmed_pool.getLast? with
    | some c =>
      let c2 := { c with injectedFiles := c.injectedFiles ++ [payload.filename],
                         execed := c.execed ++ [RUN_COMMAND] }
      (ExecuteResponse.sessionIdOk sid,
       { st0 with prewarmed_pool := st0.prewarmed_pool.dropLast,
                  sessions := sessionsInsert st0.sessions sid
                    { container := c2, start_time := now } })
    | none =>
      let c : Container :=
        { cid := st0.nextCid, command := ["python", "-m", "http.server"],
          injectedFiles := [], execed := [],
          mounts := [{ hostDir := sessionDir, bind := "/code", mode := "ro" }] }
      (ExecuteResponse.sessionIdOk sid,
       { st0 with sessions := sessionsInsert st0.sessions sid
                    { container := c, start_time := now },
                  nextCid := st0.nextCid + 1 })

/-- The `/result/<session_id>` endpoint (`get_result`). `reload` is the runtime
inspection oracle (`container.reload()` either raises or refreshes
`container.status`); `lg` is `container.logs()`. The code mutates neither the
registry nor the pool, so the returned state is the input state. -/
def get_result (st : ExecState) (sid : String)
    (reload : Nat → Except String String) (lg : Nat → String) :
    ResultResponse × ExecState :=
  match sessionsLookup st.sessions sid with
  | none => (ResultResponse.sessionNotFound, st)
  | some sr =>
    match reload sr.container.cid with
    | Except.error e => (ResultResponse.retrievalError e, st)
    | Except.ok status =>
      if status ≠ "running" then (ResultResponse.finished (lg sr.container.cid), st)
      else (ResultResponse.stillRunning, st)

/-- The `/cleanup/<session_id>` endpoint (`cleanup_session`). The record is
popped from the registry first (`sessions.pop(session_id, None)`); only then
are `container.stop()` and `container.remove()` attempted, their combined
outcome given by the `teardown` oracle. A teardown failure is reported as a
500 response but the record is already gone. -/
def cleanup_session (st : ExecState) (sid : String)
    (teardown : Nat → Except String Unit) : CleanupResponse × ExecState :=
  match sessionsLookup st.sessions sid with
  | none => (CleanupResponse.sessionNotFound, st)
  | some sr =>
    let st2 := { st with sessions := sessionsRemove st.sessions sid }
    match teardown sr.container.cid with
    | Except.ok _ => (CleanupResponse.cleanedUp, st2)
    | Except.error e => (CleanupResponse.teardownError e, st2)

/-- One iteration of the sweeper loop `cleanup_expired_sessions`, run at time
`now`: every session whose age exceeds `TIMEOUT_SECONDS` has its container
stopped and removed (exceptions swallowed by `except Exception: pass`, so the
teardown outcome cannot affect the registry) and is popped from the registry;
then, if the pool is below target, one prewarmed container is created
(`provisionOk = false` models a failing creation, which only logs). Returns
the ids of the containers whose teardown was attempted, paired with the new
state. -/
def cleanup_expired_sessions_iter (st : ExecState) (now : Nat)
    (provisionOk : Bool) : List Nat × ExecState :=
  let expired := st.sessions.filter
    (fun p => decide (TIMEOUT_SECONDS < now - p.2.start_time))
  let kept := st.sessions.filter
    (fun p => !(decide (TIMEOUT_SECONDS < now - p.2.start_time)))
  let st2 := { st with sessions := kept }
  let st3 :=
    if st2.prewarmed_pool.length < PREWARMED_POOL_SIZE ∧ provisionOk = true then
      create_prewarmed_container st2
    else st2
  (expired.map (fun p => p.2.container.cid), st3)

/-- A run of sweeper iterations: each element of `iters` is the `time.time()`
reading of that iteration paired with whether pool replenishment succeeds. -/
def runSweeps (st : ExecState) (iters : List (Nat × Bool)) : ExecState :=
  iters.foldl (fun s i => (cleanup_expired_sessions_iter s i.1 i.2).2) st

/-- `shutdown_cleanup`: on process termination, stop and remove each container
of `prewarmed_pool` (each teardown outcome merely printed, never aborting the
loop), then clear the pool. The `sessions` registry is not touched. Returns
the teardown attempts (container id with outcome) paired with the new state. -/
def shutdown_cleanup (st : ExecState) (teardown : Nat → Except String Unit) :
    List (Nat × Except String Unit) × ExecState :=
  (st.prewarmed_pool.map (fun c => (c.cid, teardown c.cid)),
   { st with prewarmed_pool := [] })

/-- States reachable from process start through the endpoints, the sweeper
and pool provisioning, with arbitrary request data and runtime outcomes. -/
inductive Reachable : ExecState → Prop where
  | init : Reachable initState
  | provision {st : ExecState} : Reachable st →
      Reachable (create_prewarmed_container st)
  | execute {st : ExecState} (sid : String) (now : Nat) (file : Option Payload) :
      Reachable st → Reachable (execute_code st sid now file).2
  | result {st : ExecState} (sid : String) (reload : Nat → Except String String)
      (lg : Nat → String) :
      Reachable st → Reachable (get_result st sid reload lg).2
  | cleanup {st : ExecState} (sid : String) (teardown : Nat → Except String Unit) :
      Reachable st → Reachable (cleanup_session st sid teardown).2
  | sweep {st : ExecState} (now : Nat) (ok : Bool) :
      Reachable st → Reachable (cleanup_expired_sessions_iter st now ok).2

/-! Helper lemmas about the registry operations and the endpoints. -/

theorem sessionsLookup_eq_none_iff (m : List (String × SessionRecord)) (k : String) :
    sessionsLookup m k = none ↔ ∀ p ∈ m, p.1 ≠ k := by
  simp [sessionsLookup, List.find?_eq_none]

theorem sessionsLookup_remove_self (m : List (String × SessionRecord)) (k : String) :
    sessionsLookup (sessionsRemove m k) k = none := by
  rw [sessionsLookup_eq_none_iff]
  intro p hp
  simp only [sessionsRemove, List.mem_filter, Bool.not_eq_eq_eq_not, Bool.not_true,
    beq_eq_false_iff_ne] at hp
  exact hp.2

theorem sessionsLookup_insert_self (m : List (String × SessionRecord)) (k : String)
    (v : SessionRecord) : sessionsLookup (sessionsInsert m k v) k = some v := by
  have hnone : (sessionsRemove m k).find? (fun p => p.1 == k) = none := by
    have := sessionsLookup_remove_self m k
    simpa [sessionsLookup] using this
  simp [sessionsInsert, sessionsLookup, List.find?_append, hnone]

theorem get_result_state_eq (st : ExecState) (sid : String)
    (reload : Nat → Except String String) (lg : Nat → String) :
    (get_result st sid reload lg).2 = st := by
  cases h : sessionsLookup st.sessions sid with
  | none => simp [get_result, h]
  | some sr =>
    cases hr : reload sr.container.cid with
    | error e => simp [get_result, h, hr]
    | ok status =>
      by_cases hs : status = "running" <;> simp [get_result, h, hr, hs]

theorem get_result_of_lookup_none (st : ExecState) (sid : String)
    (reload : Nat → Except String String) (lg : Nat → String)
    (h : sessionsLookup st.sessions sid = none) :
    get_result st sid reload lg = (ResultResponse.sessionNotFound, st) := by
  unfold get_result
  rw [h]

theorem sweep_iter_sessions (st : ExecState) (now : Nat) (ok : Bool) :
    (cleanup_expired_sessions_iter st now ok).2.sessions =
      st.sessions.filter
        (fun p => !(decide (TIMEOUT_SECONDS < now - p.2.start_time))) := by
  unfold cleanup_expired_sessions_iter
  dsimp only
  split <;> rfl

theorem sweep_iter_lookup_none (st : ExecState) (now : Nat) (ok : Bool)
    (sid : String) (h : sessionsLookup st.sessions sid = none) :
    sessionsLookup (cleanup_expired_sessions_iter st now ok).2.sessions sid = none := by
  rw [sweep_iter_sessions, sessionsLookup_eq_none_iff]
  intro p hp
  exact (sessionsLookup_eq_none_iff _ _).1 h p (List.mem_filter.1 hp).1

theorem sweep_iter_removes_expired (st : ExecState) (now : Nat) (ok : Bool)
    (sid : String) (T : Nat)
    (hall : ∀ p ∈ st.sessions, p.1 = sid → p.2.start_time = T)
    (hnow : T + TIMEOUT_SECONDS < now) :
    sessionsLookup (cleanup_expired_sessions_iter st now ok).2.sessions sid = none := by
  rw [sweep_iter_sessions, sessionsLookup_eq_none_iff]
  intro p hp hpk
  rcases List.mem_filter.1 hp with ⟨hpm, hkeep⟩
  have hT : p.2.start_time = T := hall p hpm hpk
  have hage : TIMEOUT_SECONDS < now - p.2.start_time := by
    rw [hT]
    exact Nat.lt_sub_of_add_lt (by omega)
  simp [hage] at hkeep

theorem sweep_iter_preserves_start_times (st : ExecState) (now : Nat) (ok : Bool)
    (sid : String) (T : Nat)
    (hall : ∀ p ∈ st.sessions, p.1 = sid → p.2.start_time = T) :
    ∀ p ∈ (cleanup_expired_sessions_iter st now ok).2.sessions,
      p.1 = sid → p.2.start_time = T := by
  rw [sweep_iter_sessions]
  intro p hp
  exact hall p (List.mem_filter.1 hp).1

theorem runSweeps_preserves_lookup_none (sid : String) :
    ∀ (iters : List (Nat × Bool)) (st : ExecState),
      sessionsLookup st.sessions sid = none →
      sessionsLookup (runSweeps st iters).sessions sid = none := by
  intro iters
  induction iters with
  | nil => intro st h; exact h
  | cons i rest ih =>
    intro st h
    exact ih _ (sweep_iter_lookup_none st i.1 i.2 sid h)

theorem runSweeps_removes (sid : String) (T : Nat) :
    ∀ (iters : List (Nat × Bool)) (st : ExecState),
      (∀ p ∈ st.sessions, p.1 = sid → p.2.start_time = T) →
      (∃ i ∈ iters, T + TIMEOUT_SECONDS < i.1) →
      sessionsLookup (runSweeps st iters).sessions sid = none := by
  intro iters
  induction iters with
  | nil =>
    intro st _ hwin
    rcases hwin with ⟨i, hi, _⟩
    exact absurd hi (List.not_mem_nil i)
  | cons i rest ih =>
    intro st hall hwin
    by_cases hi : T + TIMEOUT_SECONDS < i.1
    · have h1 : sessionsLookup (cleanup_expired_sessions_iter st i.1 i.2).2.sessions sid
          = none := sweep_iter_removes_expired st i.1 i.2 sid T hall hi
      exact runSweeps_preserves_lookup_none sid rest _ h1
    · have hall2 := sweep_iter_preserves_start_times st i.1 i.2 sid T hall
      rcases hwin with ⟨j, hj, hjT⟩
      rcases List.mem_cons.1 hj with hji | hjrest
      · exact absurd (hji ▸ hjT) hi
      · exact ih _ hall2 ⟨j, hjrest, hjT⟩

theorem execute_code_pool_eq (st : ExecState) (sid : String) (now : Nat)
    (payload : Payload) (c : Container)
    (hpool : st.prewarmed_pool.getLast? = some c) :
    execute_code st sid now (some payload) =
      (ExecuteResponse.sessionIdOk sid,
       { st with prewarmed_pool := st.prewarmed_pool.dropLast,
                 sessions := sessionsInsert st.sessions sid
                   { container := { c with
                       injectedFiles := c.injectedFiles ++ [payload.filename],
                       execed := c.execed ++ [RUN_COMMAND] },
                     start_time := now },
                 hostDirs := st.hostDirs ++ ["/tmp/" ++ sid] }) := by
  simp only [execute_code, hpool]

theorem execute_code_fresh_eq (st : ExecState) (sid : String) (now : Nat)
    (payload : Payload)
    (hpool : st.prewarmed_pool.getLast? = none) :
    execute_code st sid now (some payload) =
      (ExecuteResponse.sessionIdOk sid,
       { st with
           sessions := sessionsInsert st.sessions sid
             { container :=
                 { cid := st.nextCid,
                   command := ["python", "-m", "http.server"],
                   injectedFiles := [],
                   execed := [],
                   mounts := [{ hostDir := "/tmp/" ++ sid, bind := "/code", mode := "ro" }] },
               start_time := now },
           nextCid := st.nextCid + 1,
           hostDirs := st.hostDirs ++ ["/tmp/" ++ sid] }) := by
  simp only [execute_code, hpool]

theorem cleanup_session_none_eq (st : ExecState) (sid : String)
    (teardown : Nat → Except String Unit)
    (h : sessionsLookup st.sessions sid = none) :
    cleanup_session st sid teardown = (CleanupResponse.sessionNotFound, st) := by
  simp only [cleanup_session, h]

theorem cleanup_session_found_state (st : ExecState) (sid : String)
    (sr : SessionRecord) (teardown : Nat → Except String Unit)
    (h : sessionsLookup st.sessions sid = some sr) :
    (cleanup_session st sid teardown).2 =
      { st with sessions := sessionsRemove st.sessions sid } := by
  simp only [cleanup_session, h]
  cases teardown sr.container.cid <;> rfl

/-- Ownership invariant over the executor state: every pooled container has an
identity below the allocation counter and distinct from every other pooled
container, no pooled container is bound to a registered session, and every
pooled container is idle (no command was ever exec-ed inside it). -/
structure StateInv (st : ExecState) : Prop where
  pool_lt : ∀ c ∈ st.prewarmed_pool, c.cid < st.nextCid
  sess_lt : ∀ p ∈ st.sessions, p.2.container.cid < st.nextCid
  pool_nodup : (st.prewarmed_pool.map (fun c => c.cid)).Nodup
  disj : ∀ c ∈ st.prewarmed_pool, ∀ p ∈ st.sessions, p.2.container.cid ≠ c.cid
  pool_idle : ∀ c ∈ st.prewarmed_pool, c.execed = []

theorem stateInv_init : StateInv initState := by
  constructor <;> simp [initState]

theorem stateInv_provision (st : ExecState) (h : StateInv st) :
    StateInv (create_prewarmed_container st) := by
  constructor
  · intro c hc
    dsimp only [create_prewarmed_container]
    rcases List.mem_append.1 hc with hc | hc
    · exact Nat.lt_succ_of_lt (h.pool_lt c hc)
    · rw [List.mem_singleton.1 hc]
      exact Nat.lt_succ_self _
  · intro p hp
    exact Nat.lt_succ_of_lt (h.sess_lt p hp)
  · show (List.map (fun c => c.cid)
      (st.prewarmed_pool ++ [freshPrewarmedContainer st.nextCid])).Nodup
    rw [List.map_append]
    refine List.Nodup.append h.pool_nodup (List.nodup_singleton _) ?_
    intro a ha hb
    have halt : a < st.nextCid := by
      rcases List.mem_map.1 ha with ⟨c, hc, hca⟩
      rw [← hca]
      exact h.pool_lt c hc
    have hae : a = st.nextCid := by
      simpa [freshPrewarmedContainer] using hb
    omega
  · intro c hc p hp
    rcases List.mem_append.1 hc with hc | hc
    · exact h.disj c hc p hp
    · rw [List.mem_singleton.1 hc]
      have := h.sess_lt p hp
      simp only [freshPrewarmedContainer]
      omega
  · intro c hc
    rcases List.mem_append.1 hc with hc | hc
    · exact h.pool_idle c hc
    · rw [List.mem_singleton.1 hc]
      rfl

theorem stateInv_filter_sessions (st : ExecState)
    (q : String × SessionRecord → Bool) (h : StateInv st) :
    StateInv { st with sessions := st.sessions.filter q } := by
  constructor
  · exact h.pool_lt
  · intro p hp
    exact h.sess_lt p (List.mem_filter.1 hp).1
  · exact h.pool_nodup
  · intro c hc p hp
    exact h.disj c hc p (List.mem_filter.1 hp).1
  · exact h.pool_idle

theorem stateInv_execute (st : ExecState) (sid : String) (now : Nat)
    (file : Option Payload) (h : StateInv st) :
    StateInv (execute_code st sid now file).2 := by
  cases file with
  | none => exact h
  | some payload =>
    cases hpool : st.prewarmed_pool.getLast? with
    | some c =>
      rcases List.getLast?_eq_some_iff.1 hpool with ⟨l2, hl2⟩
      have hdl : st.prewarmed_pool.dropLast = l2 := by
        rw [hl2, List.dropLast_concat]
      have hcmem : c ∈ st.prewarmed_pool := by
        rw [hl2]; exact List.mem_append_right _ (List.mem_singleton_self c)
      have hcnotl2 : c.cid ∉ l2.map (fun d => d.cid) := by
        have hnd := h.pool_nodup
        rw [hl2, List.map_append] at hnd
        have hdisj := (List.nodup_append.1 hnd).2.2
        intro hmem
        exact hdisj hmem (by simp)
      rw [execute_code_pool_eq st sid now payload c hpool]
      constructor
      · intro d hd
        dsimp only at hd
        rw [hdl] at hd
        exact h.pool_lt d (by rw [hl2]; exact List.mem_append_left _ hd)
      · intro p hp
        dsimp only at hp
        rcases List.mem_append.1 hp with hp | hp
        · exact h.sess_lt p (List.mem_filter.1 hp).1
        · rw [List.mem_singleton.1 hp]
          exact h.pool_lt c hcmem
      · show (List.map (fun d => d.cid) st.prewarmed_pool.dropLast).Nodup
        rw [hdl]
        have hnd := h.pool_nodup
        rw [hl2, List.map_append] at hnd
        exact List.Nodup.of_append_left hnd
      · intro d hd p hp
        dsimp only at hd hp
        rw [hdl] at hd
        rcases List.mem_append.1 hp with hp | hp
        · exact h.disj d (by rw [hl2]; exact List.mem_append_left _ hd)
            p (List.mem_filter.1 hp).1
        · rw [List.mem_singleton.1 hp]
          intro heq
          exact hcnotl2 (heq ▸ List.mem_map_of_mem (fun d => d.cid) hd)
      · intro d hd
        dsimp only at hd
        rw [hdl] at hd
        exact h.pool_idle d (by rw [hl2]; exact List.mem_append_left _ hd)
    | none =>
      have hpe : st.prewarmed_pool = [] := by
        cases hl : st.prewarmed_pool with
        | nil => rfl
        | cons a l => rw [hl] at hpool; simp at hpool
      rw [execute_code_fresh_eq st sid now payload hpool]
      constructor
      · intro d hd
        dsimp only at hd
        rw [hpe] at hd
        exact absurd hd (List.not_mem_nil d)
      · intro p hp
        dsimp only at hp
        rcases List.mem_append.1 hp with hp | hp
        · exact Nat.lt_succ_of_lt (h.sess_lt p (List.mem_filter.1 hp).1)
        · rw [List.mem_singleton.1 hp]
          exact Nat.lt_succ_self _
      · show (List.map (fun d => d.cid) st.prewarmed_pool).Nodup
        exact h.pool_nodup
      · intro d hd p hp
        dsimp only at hd
        rw [hpe] at hd
        exact absurd hd (List.not_mem_nil d)
      · intro d hd
        dsimp only at hd
        rw [hpe] at hd
        exact absurd hd (List.not_mem_nil d)

theorem stateInv_cleanup (st : ExecState) (sid : String)
    (teardown : Nat → Except String Unit) (h : StateInv st) :
    StateInv (cleanup_session st sid teardown).2 := by
  cases hl : sessionsLookup st.sessions sid with
  | none =>
    rw [cleanup_session_none_eq st sid teardown hl]
    exact h
  | some sr =>
    rw [cleanup_session_found_state st sid sr teardown hl]
    exact stateInv_filter_sessions st _ h

theorem stateInv_sweep (st : ExecState) (now : Nat) (ok : Bool) (h : StateInv st) :
    StateInv (cleanup_expired_sessions_iter st now ok).2 := by
  unfold cleanup_expired_sessions_iter
  dsimp only
  split
  · exact stateInv_provision _ (stateInv_filter_sessions st _ h)
  · exact stateInv_filter_sessions st _ h

theorem reachable_stateInv (st : ExecState) (h : Reachable st) : StateInv st := by
  induction h with
  | init => exact stateInv_init
  | provision _ ih => exact stateInv_provision _ ih
  | execute sid now file _ ih => exact stateInv_execute _ sid now file ih
  | result sid reload lg _ ih =>
    rw [get_result_state_eq]
    exact ih
  | cleanup sid teardown _ ih => exact stateInv_cleanup _ sid teardown ih
  | sweep now ok _ ih => exact stateInv_sweep _ now ok ih

theorem string_append_left_cancel (s t u : String) (h : s ++ t = s ++ u) :
    t = u := by
  apply String.ext
  have hd : (s ++ t).data = (s ++ u).data := by rw [h]
  rw [String.data_append, String.data_append] at hd
  exact List.append_cancel_left hd

/-! Claim theorems. -/

/-- C1: evaluation of the dispatcher at a payload submitted while the prewarm
pool is empty. The fallback provisions a fresh container whose main process is
the generic standby `python -m http.server` with the session directory mounted
read-only at `/code`, and returns a session id — but no run command for the
payload is ever issued inside it (its exec list stays empty), so while the
standby process keeps the container in status "running" every poll reports
still-running: no `result` call can ever report Finished with the payload's
output, contradicting the claimed scenario. -/
theorem c1_empty_pool_fallback_never_runs_payload :
    (execute_code initState "sid-c1" 0
        (some { filename := "main.py", content := [104, 105] })).1 =
      ExecuteResponse.sessionIdOk "sid-c1" ∧
    (sessionsLookup (execute_code initState "sid-c1" 0
        (some { filename := "main.py", content := [104, 105] })).2.sessions
        "sid-c1").map
      (fun sr => (sr.container.command, sr.container.execed, sr.container.mounts)) =
      some (["python", "-m", "http.server"], [],
        [{ hostDir := "/tmp/sid-c1", bind := "/code", mode := "ro" }]) ∧
    (get_result (execute_code initState "sid-c1" 0
        (some { filename := "main.py", content := [104, 105] })).2 "sid-c1"
        (fun _ => Except.ok "running") (fun _ => "")).1 =
      ResultResponse.stillRunning :=
  ⟨rfl, rfl, rfl⟩

/-- C2 counterexample: dispatching the entry file `script.py` from the pool
issues the hard-coded command `python /code/main.py` inside the taken handle,
which is not the execution of the submitted entry file. -/
theorem c2_counterexample_fixed_filename :
    (sessionsLookup (execute_code (create_prewarmed_container initState)
        "sid-c2" 3 (some { filename := "script.py", content := [1] })).2.sessions
        "sid-c2").map (fun sr => sr.container.execed) =
      some ["python /code/main.py"] ∧
    ("python /code/main.py" : String) ≠ "python /code/" ++ "script.py" :=
  ⟨rfl, by decide⟩

/-- C2 (amended): for every dispatch served from the prewarm pool, the payload
file is injected into the taken handle's filesystem, and the fire-and-forget
command issued inside that handle is always the fixed `python /code/main.py`;
it coincides with the execution of the submitted entry file exactly when that
file is named `main.py`. -/
theorem pool_dispatch_injects_payload_and_execs_fixed_main
    (st : ExecState) (sid : String) (now : Nat) (payload : Payload)
    (c : Container)
    (hpool : st.prewarmed_pool.getLast? = some c) :
    sessionsLookup (execute_code st sid now (some payload)).2.sessions sid =
      some { container := { c with
               injectedFiles := c.injectedFiles ++ [payload.filename],
               execed := c.execed ++ [RUN_COMMAND] },
             start_time := now } ∧
    (RUN_COMMAND = "python /code/" ++ payload.filename ↔
      payload.filename = "main.py") := by
  constructor
  · rw [execute_code_pool_eq st sid now payload c hpool]
    exact sessionsLookup_insert_self _ _ _
  · constructor
    · intro h
      have h2 : ("python /code/" : String) ++ "main.py" =
          "python /code/" ++ payload.filename := by
        rw [← h]; decide
      exact (string_append_left_cancel _ _ _ h2).symm
    · intro h
      rw [h]
      decide

/-- C2 witness: instantiation at a pool holding one prewarmed container and
the payload `main.py`. -/
theorem pool_dispatch_injects_payload_and_execs_fixed_main_witness :
    sessionsLookup (execute_code (create_prewarmed_container initState)
        "sid-c2w" 7 (some { filename := "main.py", content := [2] })).2.sessions
        "sid-c2w" =
      some { container := { freshPrewarmedContainer 0 with
               injectedFiles := [] ++ ["main.py"],
               execed := [] ++ [RUN_COMMAND] },
             start_time := 7 } ∧
    (RUN_COMMAND = "python /code/" ++ "main.py" ↔ ("main.py" : String) = "main.py") :=
  pool_dispatch_injects_payload_and_execs_fixed_main
    (create_prewarmed_container initState) "sid-c2w" 7
    { filename := "main.py", content := [2] }
    (freshPrewarmedContainer 0) rfl

/-- C3 counterexample: a present but empty payload file (zero bytes) is not
rejected: the dispatcher returns a session id, creates the session directory
and registers a session — side effects included — instead of failing with a
missing-payload error. -/
theorem c3_counterexample_empty_file_accepted :
    (execute_code initState "sid-c3" 0
        (some { filename := "main.py", content := [] })).1 =
      ExecuteResponse.sessionIdOk "sid-c3" ∧
    (execute_code initState "sid-c3" 0
        (some { filename := "main.py", content := [] })).1 ≠
      ExecuteResponse.noFileProvided ∧
    (execute_code initState "sid-c3" 0
        (some { filename := "main.py", content := [] })).2 ≠ initState :=
  ⟨rfl, by decide, by decide⟩

/-- C3 (amended): the dispatcher rejects a request only when the payload is
absent, failing with the missing-payload error and leaving all state
(registry, pool, counter, created host directories) unchanged; every present
payload — including an empty file — is accepted and yields a session id. -/
theorem missing_payload_rejected_without_side_effects
    (st : ExecState) (sid : String) (now : Nat) :
    execute_code st sid now none = (ExecuteResponse.noFileProvided, st) ∧
    ∀ payload : Payload,
      (execute_code st sid now (some payload)).1 =
        ExecuteResponse.sessionIdOk sid := by
  constructor
  · rfl
  · intro payload
    cases hpool : st.prewarmed_pool.getLast? with
    | some c => rw [execute_code_pool_eq st sid now payload c hpool]
    | none => rw [execute_code_fresh_eq st sid now payload hpool]

/-- C4: for every registered session, cleanup removes the record from the
registry even when stopping or removing the bound container errors (the
teardown error is reported as the response but the record is gone), and a
second cleanup on the same identifier fails with the session-not-found error. -/
theorem cleanup_removes_record_despite_teardown_error
    (st : ExecState) (sid : String) (sr : SessionRecord) (e : String)
    (td td2 : Nat → Except String Unit)
    (h : sessionsLookup st.sessions sid = some sr)
    (hte : td sr.container.cid = Except.error e) :
    (cleanup_session st sid td).1 = CleanupResponse.teardownError e ∧
    sessionsLookup (cleanup_session st sid td).2.sessions sid = none ∧
    (cleanup_session (cleanup_session st sid td).2 sid td2).1 =
      CleanupResponse.sessionNotFound := by
  have hstate := cleanup_session_found_state st sid sr td h
  have hresp : (cleanup_session st sid td).1 = CleanupResponse.teardownError e := by
    simp only [cleanup_session, h, hte]
  have hgone : sessionsLookup (cleanup_session st sid td).2.sessions sid = none := by
    rw [hstate]
    exact sessionsLookup_remove_self st.sessions sid
  refine ⟨hresp, hgone, ?_⟩
  rw [cleanup_session_none_eq _ sid td2 hgone]

/-- C4 witness: a concrete registered session whose container teardown fails. -/
theorem cleanup_removes_record_despite_teardown_error_witness :
    (cleanup_session (execute_code initState "sid-c4" 0
        (some { filename := "main.py", content := [3] })).2 "sid-c4"
        (fun _ => Except.error "boom")).1 = CleanupResponse.teardownError "boom" ∧
    sessionsLookup (cleanup_session (execute_code initState "sid-c4" 0
        (some { filename := "main.py", content := [3] })).2 "sid-c4"
        (fun _ => Except.error "boom")).2.sessions "sid-c4" = none ∧
    (cleanup_session (cleanup_session (execute_code initState "sid-c4" 0
        (some { filename := "main.py", content := [3] })).2 "sid-c4"
        (fun _ => Except.error "boom")).2 "sid-c4"
        (fun _ => Except.ok ())).1 = CleanupResponse.sessionNotFound :=
  cleanup_removes_record_despite_teardown_error _ "sid-c4"
    { container :=
        { cid := 0, command := ["python", "-m", "http.server"],
          injectedFiles := [], execed := [],
          mounts := [{ hostDir := "/tmp/sid-c4", bind := "/code", mode := "ro" }] },
      start_time := 0 }
    "boom" (fun _ => Except.error "boom") (fun _ => Except.ok ()) rfl rfl

/-- C7 counterexample: a reachable state holding one in-flight session (bound
to the container with id 0) and an empty pool. The shutdown drain attempts no
teardown at all — in particular it does not stop or remove the in-flight
session's container — refuting the claim that every in-flight container is
drained. -/
theorem c7_counterexample_inflight_session_not_drained :
    Reachable (execute_code initState "sid-c7" 0
      (some { filename := "main.py", content := [4] })).2 ∧
    (sessionsLookup (execute_code initState "sid-c7" 0
        (some { filename := "main.py", content := [4] })).2.sessions
        "sid-c7").isSome = true ∧
    (shutdown_cleanup (execute_code initState "sid-c7" 0
        (some { filename := "main.py", content := [4] })).2
        (fun _ => Except.ok ())).1 = [] :=
  ⟨Reachable.execute "sid-c7" 0 _ Reachable.init, rfl, rfl⟩

/-- C7 (amended): the shutdown drain stops and removes every container held in
the prewarm pool — each teardown is attempted with its outcome recorded, one
failure never skipping the rest — and clears the pool; containers bound to
in-flight sessions are not drained and the session registry is untouched. -/
theorem shutdown_drains_every_pooled_container
    (st : ExecState) (td : Nat → Except String Unit) :
    (shutdown_cleanup st td).2.prewarmed_pool = [] ∧
    (∀ c ∈ st.prewarmed_pool, (c.cid, td c.cid) ∈ (shutdown_cleanup st td).1) ∧
    (shutdown_cleanup st td).2.sessions = st.sessions := by
  refine ⟨rfl, ?_, rfl⟩
  intro c hc
  exact List.mem_map_of_mem (fun c => (c.cid, td c.cid)) hc

theorem sweep_iter_torndown (st : ExecState) (now : Nat) (ok : Bool) :
    (cleanup_expired_sessions_iter st now ok).1 =
      (st.sessions.filter
        (fun p => decide (TIMEOUT_SECONDS < now - p.2.start_time))).map
        (fun p => p.2.container.cid) := rfl

/-- C5: a session created at time `T` is reclaimed no later than
`T + TIMEOUT_SECONDS + SWEEP_INTERVAL`. Any sweeper iteration running at a
time at which the session's age exceeds the budget attempts the teardown of
its bound container (whatever the teardown outcome: failures are swallowed
and cannot keep the record alive) and removes the session from the registry;
so given some iteration inside the window
`(T + budget, T + budget + interval]`, after the sweeps `result()` on the
identifier reports session-not-found rather than still-running. -/
theorem expiry_bound_reclaims_session
    (st : ExecState) (sid : String) (c : Container) (T : Nat)
    (iters : List (Nat × Bool))
    (reload : Nat → Except String String) (lg : Nat → String)
    (hall : ∀ p ∈ st.sessions, p.1 = sid → p.2.start_time = T)
    (hfound : sessionsLookup st.sessions sid =
      some { container := c, start_time := T })
    (hwin : ∃ i ∈ iters, T + TIMEOUT_SECONDS < i.1 ∧
        i.1 ≤ T + TIMEOUT_SECONDS + SWEEP_INTERVAL) :
    (∀ now ok, T + TIMEOUT_SECONDS < now →
        c.cid ∈ (cleanup_expired_sessions_iter st now ok).1) ∧
    (get_result (runSweeps st iters) sid reload lg).1 =
      ResultResponse.sessionNotFound := by
  constructor
  · intro now ok hnow
    rcases Option.map_eq_some'.1 hfound with ⟨p, hfind, hp2⟩
    have hpm : p ∈ st.sessions := List.mem_of_find?_eq_some hfind
    have hstart : p.2.start_time = T := by rw [hp2]
    have hcid : p.2.container.cid = c.cid := by rw [hp2]
    have hage : TIMEOUT_SECONDS < now - p.2.start_time := by
      rw [hstart]
      exact Nat.lt_sub_of_add_lt (by omega)
    rw [sweep_iter_torndown]
    have hpf : p ∈ st.sessions.filter
        (fun q => decide (TIMEOUT_SECONDS < now - q.2.start_time)) :=
      List.mem_filter.2 ⟨hpm, by simp [hage]⟩
    have hmm : p.2.container.cid ∈
        (st.sessions.filter
          (fun q => decide (TIMEOUT_SECONDS < now - q.2.start_time))).map
          (fun q => q.2.container.cid) :=
      List.mem_map_of_mem (fun q => q.2.container.cid) hpf
    rw [hcid] at hmm
    exact hmm
  · rcases hwin with ⟨i, hi, hiT, _⟩
    have hnone : sessionsLookup (runSweeps st iters).sessions sid = none :=
      runSweeps_removes sid T iters st hall ⟨i, hi, hiT⟩
    rw [get_result_of_lookup_none _ _ _ _ hnone]

/-- C5 witness: a session dispatched at time 0 on an empty pool, with a single
sweeper iteration at time 12, inside the window (10, 15]. -/
theorem expiry_bound_reclaims_session_witness :
    (∀ now ok, 0 + TIMEOUT_SECONDS < now →
        (Container.mk 0 ["python", "-m", "http.server"] [] []
          [{ hostDir := "/tmp/sid-c5", bind := "/code", mode := "ro" }]).cid ∈
          (cleanup_expired_sessions_iter (execute_code initState "sid-c5" 0
            (some { filename := "main.py", content := [5] })).2 now ok).1) ∧
    (get_result (runSweeps (execute_code initState "sid-c5" 0
        (some { filename := "main.py", content := [5] })).2 [(12, true)])
        "sid-c5" (fun _ => Except.ok "running") (fun _ => "")).1 =
      ResultResponse.sessionNotFound :=
  expiry_bound_reclaims_session
    (execute_code initState "sid-c5" 0
      (some { filename := "main.py", content := [5] })).2
    "sid-c5"
    (Container.mk 0 ["python", "-m", "http.server"] [] []
      [{ hostDir := "/tmp/sid-c5", bind := "/code", mode := "ro" }])
    0 [(12, true)] (fun _ => Except.ok "running") (fun _ => "")
    (by decide) rfl (by decide)

/-- C6: over every reachable state, no container handle held by the prewarm
pool is bound to a live session record (dispatch removes the handle from the
pool before binding it, and provisioning only appends containers fresh from
the runtime), and every pooled handle is idle: no command was ever exec-ed
inside it. -/
theorem pooled_handle_never_bound_and_idle
    (st : ExecState) (c : Container)
    (hst : Reachable st) (hc : c ∈ st.prewarmed_pool) :
    c.execed = [] ∧ ∀ p ∈ st.sessions, p.2.container.cid ≠ c.cid :=
  ⟨(reachable_stateInv st hst).pool_idle c hc,
   fun p hp => (reachable_stateInv st hst).disj c hc p hp⟩

/-- C6 witness: the reachable state obtained by dispatching on an empty pool
(creating a session bound to container 0) and then provisioning one prewarmed
container (container 1, held by the pool). -/
theorem pooled_handle_never_bound_and_idle_witness :
    (freshPrewarmedContainer 1).execed = [] ∧
    ∀ p ∈ (create_prewarmed_container (execute_code initState "sid-c6" 0
        (some { filename := "main.py", content := [6] })).2).sessions,
      p.2.container.cid ≠ (freshPrewarmedContainer 1).cid :=
  pooled_handle_never_bound_and_idle _ (freshPrewarmedContainer 1)
    (Reachable.provision (Reachable.execute "sid-c6" 0
      (some { filename := "main.py", content := [6] }) Reachable.init))
    (by decide)

/-- C8: if refreshing the bound container's status from the runtime errors,
`result` surfaces a retrieval error carrying the underlying cause rather than
reporting still-running, and the state — registry and pool included — is the
unchanged input state, so the session record is still present, unmodified. -/
theorem retrieval_error_surfaced
    (st : ExecState) (sid : String) (sr : SessionRecord) (e : String)
    (reload : Nat → Except String String) (lg : Nat → String)
    (h : sessionsLookup st.sessions sid = some sr)
    (he : reload sr.container.cid = Except.error e) :
    get_result st sid reload lg = (ResultResponse.retrievalError e, st) := by
  simp only [get_result, h, he]

/-- C8 witness: a concrete registered session whose runtime refresh errors. -/
theorem retrieval_error_surfaced_witness :
    get_result (execute_code initState "sid-c8" 0
        (some { filename := "main.py", content := [8] })).2 "sid-c8"
        (fun _ => Except.error "gone") (fun _ => "") =
      (ResultResponse.retrievalError "gone",
       (execute_code initState "sid-c8" 0
         (some { filename := "main.py", content := [8] })).2) :=
  retrieval_error_surfaced _ "sid-c8"
    { container :=
        { cid := 0, command := ["python", "-m", "http.server"],
          injectedFiles := [], execed := [],
          mounts := [{ hostDir := "/tmp/sid-c8", bind := "/code", mode := "ro" }] },
      start_time := 0 }
    "gone" (fun _ => Except.error "gone") (fun _ => "") rfl rfl

/-- C9: `result` never mutates the stored session record, the registry or the
pool — the state returned by every call is the input state — and for a
session whose container has terminated (refreshed status differs from
"running"), the call reports Finished with the captured logs and calling
again yields the very same response, every time, until a cleanup removes the
session. -/
theorem result_never_mutates_and_finished_repeats
    (st : ExecState) (sid : String) (sr : SessionRecord) (status : String)
    (reload : Nat → Except String String) (lg : Nat → String)
    (h : sessionsLookup st.sessions sid = some sr)
    (hok : reload sr.container.cid = Except.ok status)
    (hne : status ≠ "running") :
    (∀ sid2 reload2 lg2, (get_result st sid2 reload2 lg2).2 = st) ∧
    (get_result st sid reload lg).1 =
      ResultResponse.finished (lg sr.container.cid) ∧
    get_result (get_result st sid reload lg).2 sid reload lg =
      get_result st sid reload lg := by
  refine ⟨fun sid2 reload2 lg2 => get_result_state_eq st sid2 reload2 lg2, ?_, ?_⟩
  · simp [get_result, h, hok, hne]
  · rw [get_result_state_eq]

/-- C9 witness: a registered session whose container has exited; the logs
captured for it are returned and the state is unchanged. -/
theorem result_never_mutates_and_finished_repeats_witness :
    (∀ sid2 reload2 lg2,
      (get_result (execute_code initState "sid-c9" 0
        (some { filename := "main.py", content := [9] })).2 sid2 reload2 lg2).2 =
      (execute_code initState "sid-c9" 0
        (some { filename := "main.py", content := [9] })).2) ∧
    (get_result (execute_code initState "sid-c9" 0
        (some { filename := "main.py", content := [9] })).2 "sid-c9"
        (fun _ => Except.ok "exited") (fun _ => "hi")).1 =
      ResultResponse.finished "hi" ∧
    get_result (get_result (execute_code initState "sid-c9" 0
        (some { filename := "main.py", content := [9] })).2 "sid-c9"
        (fun _ => Except.ok "exited") (fun _ => "hi")).2 "sid-c9"
        (fun _ => Except.ok "exited") (fun _ => "hi") =
      get_result (execute_code initState "sid-c9" 0
        (some { filename := "main.py", content := [9] })).2 "sid-c9"
        (fun _ => Except.ok "exited") (fun _ => "hi") :=
  result_never_mutates_and_finished_repeats _ "sid-c9"
    { container :=
        { cid := 0, command := ["python", "-m", "http.server"],
          injectedFiles := [], execed := [],
          mounts := [{ hostDir := "/tmp/sid-c9", bind := "/code", mode := "ro" }] },
      start_time := 0 }
    "exited" (fun _ => Except.ok "exited") (fun _ => "hi") rfl rfl (by decide)

/-- C10: for a registered session, only the exact refreshed status "running"
yields the still-running response; every other status — "created",
"provisioning", "exited", anything — makes `result` report Finished with the
logs captured so far. -/
theorem only_exact_running_status_reports_still_running
    (st : ExecState) (sid : String) (sr : SessionRecord) (status : String)
    (reload : Nat → Except String String) (lg : Nat → String)
    (h : sessionsLookup st.sessions sid = some sr)
    (hok : reload sr.container.cid = Except.ok status) :
    (status ≠ "running" → (get_result st sid reload lg).1 =
      ResultResponse.finished (lg sr.container.cid)) ∧
    (status = "running" → (get_result st sid reload lg).1 =
      ResultResponse.stillRunning) := by
  constructor
  · intro hne
    simp [get_result, h, hok, hne]
  · intro heq
    simp [get_result, h, hok, heq]

/-- C10 witness: a registered session whose refreshed status is "created"
(not yet started): the response is Finished with the logs so far. -/
theorem only_exact_running_status_reports_still_running_witness :
    (("created" : String) ≠ "running" →
      (get_result (execute_code initState "sid-c10" 0
        (some { filename := "main.py", content := [10] })).2 "sid-c10"
        (fun _ => Except.ok "created") (fun _ => "")).1 =
      ResultResponse.finished "") ∧
    (("created" : String) = "running" →
      (get_result (execute_code initState "sid-c10" 0
        (some { filename := "main.py", content := [10] })).2 "sid-c10"
        (fun _ => Except.ok "created") (fun _ => "")).1 =
      ResultResponse.stillRunning) :=
  only_exact_running_status_reports_still_running _ "sid-c10"
    { container :=
        { cid := 0, command := ["python", "-m", "http.server"],
          injectedFiles := [], execed := [],
          mounts := [{ hostDir := "/tmp/sid-c10", bind := "/code", mode := "ro" }] },
      start_time := 0 }
    "created" (fun _ => Except.ok "created") (fun _ => "") rfl rfl

end WebPlatformExecutor
